import Mathlib

/-!
Shallow embedding of the obsidian-template-plugin sources.

The embedding covers the settings path (`SettingsManager` in the settings
module, the load line of `TemplatePlugin.onload` in `src/main.ts`) and the
vault event handlers (`VaultEventHandler` in the events module).  Logging is
modelled as a list of emitted log entries (level, message, structured data
rendered as string pairs); host storage (`saveData` / `loadData`) is modelled
as an explicit parameter.  Floating-point string formatting (the `sizeMB`
field of one log entry, `(size / 1048576).toFixed(2)`) is not modelled; the
entry keeps the exact byte count instead.
-/

/-- Log severities of the logging utility (`debug`, `info`, `warn`, `error`). -/
inductive LogLevel
  | debug
  | info
  | warn
  | error
deriving DecidableEq, Repr

/-- One emitted log line: severity, message, structured data as string pairs. -/
structure LogEntry where
  level : LogLevel
  message : String
  data : List (String × String)
deriving DecidableEq, Repr

/-- `TemplatePluginSettings` from `src/types/index.ts`. -/
structure TemplatePluginSettings where
  enableFeature : Bool
  exampleSetting : String
deriving DecidableEq, Repr

/-- `DEFAULT_SETTINGS` from `src/main.ts`. -/
def DEFAULT_SETTINGS : TemplatePluginSettings :=
  { enableFeature := true, exampleSetting := "default value" }

/-- A persisted settings blob as it may come back from `loadData()`: a JSON
object in which either field may be absent. -/
structure PersistedSettings where
  enableFeature : Option Bool
  exampleSetting : Option String
deriving DecidableEq, Repr

/-- The load line of `TemplatePlugin.onload`:
`Object.assign({}, DEFAULT_SETTINGS, await this.loadData())`.
`none` is `loadData()` returning `null`; a present field of the persisted
object overrides the default, an absent field keeps the default. -/
def loadSettings : Option PersistedSettings → TemplatePluginSettings
  | none => DEFAULT_SETTINGS
  | some p =>
    { enableFeature := p.enableFeature.getD DEFAULT_SETTINGS.enableFeature,
      exampleSetting := p.exampleSetting.getD DEFAULT_SETTINGS.exampleSetting }

/-- The same load line, viewed on the raw JavaScript object so that field
PRESENCE is tracked: `Object.assign` starts from `DEFAULT_SETTINGS`, whose
both fields are present, so both fields of the result are present. -/
def loadSettingsObject : Option PersistedSettings → PersistedSettings
  | none =>
    { enableFeature := some DEFAULT_SETTINGS.enableFeature,
      exampleSetting := some DEFAULT_SETTINGS.exampleSetting }
  | some p =>
    { enableFeature := some (p.enableFeature.getD DEFAULT_SETTINGS.enableFeature),
      exampleSetting := some (p.exampleSetting.getD DEFAULT_SETTINGS.exampleSetting) }

/-- A typed key/value pair for `updateSetting<K extends keyof TemplatePluginSettings>`. -/
inductive SettingUpdate
  | enableFeature (v : Bool)
  | exampleSetting (v : String)
deriving DecidableEq, Repr

/-- `String(key)` of the updated key. -/
def SettingUpdate.keyName : SettingUpdate → String
  | .enableFeature _ => "enableFeature"
  | .exampleSetting _ => "exampleSetting"

/-- The new value, rendered as it appears in log data. -/
def SettingUpdate.valueString : SettingUpdate → String
  | .enableFeature v => if v then "true" else "false"
  | .exampleSetting v => v

/-- The assignment `settings[key] = value` on the typed record. -/
def applySettingUpdate (s : TemplatePluginSettings) : SettingUpdate → TemplatePluginSettings
  | .enableFeature v => { s with enableFeature := v }
  | .exampleSetting v => { s with exampleSetting := v }

/-- The assignment `settings[key] = value` viewed on the raw object with
field presence tracked. -/
def assignSettingField (o : PersistedSettings) : SettingUpdate → PersistedSettings
  | .enableFeature v => { o with enableFeature := some v }
  | .exampleSetting v => { o with exampleSetting := some v }

/-- `settings[key]` read back, rendered as in log data (the `oldValue` field). -/
def readSettingValue (s : TemplatePluginSettings) : SettingUpdate → String
  | .enableFeature _ => if s.enableFeature then "true" else "false"
  | .exampleSetting _ => s.exampleSetting

/-- Whether the record holds exactly the updated value at the updated key. -/
def matchesUpdate (s : TemplatePluginSettings) : SettingUpdate → Bool
  | .enableFeature v => s.enableFeature == v
  | .exampleSetting v => s.exampleSetting == v

/-- The validation guard of `updateSetting`:
`key === 'exampleSetting' && typeof value === 'string' && value.length > 100`. -/
def exceedsRecommendedLength : SettingUpdate → Bool
  | .enableFeature _ => false
  | .exampleSetting v => decide (v.length > 100)

/-- The `newValue` rendering of the success info log:
strings longer than 50 characters are truncated with an ellipsis. -/
def truncateForLog : SettingUpdate → String
  | .enableFeature v => if v then "true" else "false"
  | .exampleSetting v => if v.length > 50 then v.take 50 ++ "..." else v

/-- The mutable state `updateSetting` touches: the manager's own `settings`
field, the plugin's `settings` field (line 44 and 45 of the settings module
write both), and the host-storage content (`some r` once a record `r` has
been persisted). -/
structure ManagerState where
  settings : TemplatePluginSettings
  pluginSettings : TemplatePluginSettings
  stored : Option TemplatePluginSettings
deriving DecidableEq, Repr

/-- `SettingsManager.updateSetting(key, value)`.  `saveData` is the host
storage call `this.plugin.saveData`; its result decides the try/catch branch.
Returns the propagated result, the state after the call, and the emitted
log entries in order. -/
def updateSetting (saveData : TemplatePluginSettings → Except String Unit)
    (st : ManagerState) (u : SettingUpdate) :
    Except String Unit × ManagerState × List LogEntry :=
  let entryLog : LogEntry :=
    ⟨.debug, "Updating setting: " ++ u.keyName,
      [("oldValue", readSettingValue st.settings u), ("newValue", u.valueString)]⟩
  let validationLogs : List LogEntry :=
    if exceedsRecommendedLength u then
      [⟨.warn, "Setting value exceeds recommended length",
        [("key", u.keyName), ("length", toString u.valueString.length),
         ("maxRecommended", "100")]⟩]
    else []
  let newSettings := applySettingUpdate st.settings u
  let newPluginSettings := applySettingUpdate st.pluginSettings u
  let persistLog : LogEntry := ⟨.debug, "Persisting updated settings to storage", []⟩
  match saveData newPluginSettings with
  | .ok _ =>
    (.ok (),
     ⟨newSettings, newPluginSettings, some newPluginSettings⟩,
     [entryLog] ++ validationLogs ++
       [persistLog,
        ⟨.debug, "Setting update completed successfully", []⟩,
        ⟨.info, "Setting successfully updated",
          [("key", u.keyName), ("newValue", truncateForLog u)]⟩])
  | .error e =>
    (.error e,
     ⟨newSettings, newPluginSettings, st.stored⟩,
     [entryLog] ++ validationLogs ++
       [persistLog,
        ⟨.error, "Failed to update plugin setting",
          [("key", u.keyName), ("error", e), ("attemptedValue", u.valueString)]⟩])

/-- `SettingsManager.getSettings()`: returns the in-memory record and logs. -/
def getSettings (st : ManagerState) : TemplatePluginSettings × List LogEntry :=
  (st.settings, [⟨.debug, "Retrieving current settings configuration", []⟩])

/-- `file.stat` of a vault file: only `size` is read by this plugin. -/
structure FileStats where
  size : Nat
deriving DecidableEq, Repr

/-- A `TFile`: the attributes the handlers read. -/
structure TFile where
  path : String
  name : String
  extension : String
  stat : FileStats
  parent : Option String
deriving DecidableEq, Repr

/-- A `TAbstractFile` event payload: a regular file or something else
(a folder), distinguished by the `instanceof TFile` guard. -/
inductive TAbstractFile
  | file (f : TFile)
  | folder (path : String)
deriving DecidableEq, Repr

/-- JavaScript `s.includes(pat)`: true iff `pat` occurs in `s`
(always true for the empty pattern). -/
def containsSubstring (s pat : String) : Bool :=
  pat == "" || decide ((s.splitOn pat).length > 1)

/-- `file.parent?.path || 'root'`: `'root'` when the parent is absent or its
path is the empty string (falsy). -/
def parentFolderOrRoot (f : TFile) : String :=
  match f.parent with
  | none => "root"
  | some p => if p == "" then "root" else p

/-- The plugin state visible to the vault event handlers
(`this.plugin.settings`). -/
structure PluginState where
  settings : TemplatePluginSettings
deriving DecidableEq, Repr

/-- `VaultEventHandler.onFileCreate(file)`: returns the plugin state after
the call and the emitted log entries in order. -/
def onFileCreate (st : PluginState) (file : TAbstractFile) :
    PluginState × List LogEntry :=
  match file with
  | .folder _ => (st, [])
  | .file f =>
    let logs :=
      [(⟨.debug, "Processing file creation event",
          [("path", f.path), ("extension", f.extension)]⟩ : LogEntry)] ++
      (if st.settings.enableFeature then
        [(⟨.debug, "Feature enabled - applying creation logic to new file", []⟩ : LogEntry)] ++
        (if f.extension == "md" then
          [(⟨.info, "New markdown file created",
              [("path", f.path), ("parentFolder", parentFolderOrRoot f)]⟩ : LogEntry)]
         else []) ++
        (if containsSubstring f.name " " then
          [(⟨.warn, "File created with spaces in name - may cause linking issues",
              [("fileName", f.name), ("path", f.path)]⟩ : LogEntry)]
         else []) ++
        (if containsSubstring f.path "/.temp/" || f.name.startsWith "temp_" then
          [(⟨.error, "File created in restricted location or with temp naming pattern",
              [("path", f.path),
               ("pattern", "temp files not allowed in this vault configuration")]⟩ : LogEntry)]
         else [])
      else
        [(⟨.debug, "Feature disabled - skipping creation logic", []⟩ : LogEntry)])
    (st, logs)

/-- `VaultEventHandler.onFileDelete(file)`. -/
def onFileDelete (st : PluginState) (file : TAbstractFile) :
    PluginState × List LogEntry :=
  match file with
  | .folder _ => (st, [])
  | .file f =>
    let logs :=
      [(⟨.debug, "Processing file deletion event", [("path", f.path)]⟩ : LogEntry)] ++
      (if f.extension == "md" && decide (f.stat.size > 10000) then
        [(⟨.info, "Large markdown file deleted",
            [("path", f.path), ("sizeBytes", toString f.stat.size)]⟩ : LogEntry)]
       else []) ++
      (if f.path.startsWith "Important/" || containsSubstring f.name.toLower "backup" then
        [(⟨.warn, "File deleted from important location or appears to be backup",
            [("path", f.path), ("reason", "deletion from protected area detected")]⟩ : LogEntry)]
       else [])
    (st, logs)

/-- `VaultEventHandler.onFileRename(file, oldPath)`. -/
def onFileRename (st : PluginState) (file : TAbstractFile) (oldPath : String) :
    PluginState × List LogEntry :=
  match file with
  | .folder _ => (st, [])
  | .file f =>
    let oldName := (oldPath.splitOn "/").getLastD ""
    let newName := f.name
    let logs :=
      [(⟨.debug, "Processing file rename event",
          [("oldPath", oldPath), ("newPath", f.path)]⟩ : LogEntry)] ++
      (if oldName ≠ newName then
        [(⟨.info, "File renamed with name change",
            [("oldName", oldName), ("newName", newName),
             ("oldPath", oldPath), ("newPath", f.path)]⟩ : LogEntry)] ++
        (if containsSubstring oldName " " && !containsSubstring newName " " then
          [(⟨.warn, "File renamed from spaced to non-spaced name - check for broken links",
              [("oldName", oldName), ("newName", newName),
               ("suggestion", "run link update to fix references")]⟩ : LogEntry)]
         else [])
       else [])
    (st, logs)

/-- The log lines of a list that are not at debug severity. -/
def nonDebugLogs (l : List LogEntry) : List LogEntry :=
  l.filter (fun e => e.level != LogLevel.debug)

/-- Both fields of the raw settings object are present. -/
def bothFieldsDefined (o : PersistedSettings) : Bool :=
  o.enableFeature.isSome && o.exampleSetting.isSome

theorem matchesUpdate_applySettingUpdate (s : TemplatePluginSettings) (u : SettingUpdate) :
    matchesUpdate (applySettingUpdate s u) u = true := by
  cases u <;> simp [matchesUpdate, applySettingUpdate]

/-- C1: when the host storage save raises inside `updateSetting`, the same
error is propagated to the caller, the in-memory records (both the manager's
and the plugin's copy) keep the newly written value at the updated key, and
nothing new reaches storage. -/
theorem updateSetting_failure_rethrows_and_keeps_mutation
    (saveData : TemplatePluginSettings → Except String Unit)
    (st : ManagerState) (u : SettingUpdate) (e : String)
    (hfail : saveData (applySettingUpdate st.pluginSettings u) = Except.error e) :
    (updateSetting saveData st u).1 = Except.error e ∧
    matchesUpdate (updateSetting saveData st u).2.1.settings u = true ∧
    matchesUpdate (updateSetting saveData st u).2.1.pluginSettings u = true ∧
    (updateSetting saveData st u).2.1.stored = st.stored := by
  simp only [updateSetting, hfail]
  refine ⟨trivial, ?_, ?_, trivial⟩ <;> exact matchesUpdate_applySettingUpdate _ _

/-- Witness for C1 at a concrete failing save. -/
theorem updateSetting_failure_rethrows_witness :
    (updateSetting (fun _ => Except.error "disk full")
        ⟨DEFAULT_SETTINGS, DEFAULT_SETTINGS, none⟩ (SettingUpdate.exampleSetting "x")).1
      = Except.error "disk full" ∧
    matchesUpdate (updateSetting (fun _ => Except.error "disk full")
        ⟨DEFAULT_SETTINGS, DEFAULT_SETTINGS, none⟩ (SettingUpdate.exampleSetting "x")).2.1.settings
        (SettingUpdate.exampleSetting "x") = true ∧
    matchesUpdate (updateSetting (fun _ => Except.error "disk full")
        ⟨DEFAULT_SETTINGS, DEFAULT_SETTINGS, none⟩ (SettingUpdate.exampleSetting "x")).2.1.pluginSettings
        (SettingUpdate.exampleSetting "x") = true ∧
    (updateSetting (fun _ => Except.error "disk full")
        ⟨DEFAULT_SETTINGS, DEFAULT_SETTINGS, none⟩ (SettingUpdate.exampleSetting "x")).2.1.stored
      = none :=
  updateSetting_failure_rethrows_and_keeps_mutation _ _ _ _ rfl

/-- C2: loading overlays persisted data on defaults: no persisted data gives
the default record; a present persisted field wins, an absent one falls back
to its default; in particular `{enableFeature: false}` loads as
`{enableFeature: false, exampleSetting: "default value"}`. -/
theorem loadSettings_overlays_persisted_on_defaults :
    loadSettings none = { enableFeature := true, exampleSetting := "default value" } ∧
    (∀ p b, p.enableFeature = some b → (loadSettings (some p)).enableFeature = b) ∧
    (∀ p, p.enableFeature = none → (loadSettings (some p)).enableFeature = true) ∧
    (∀ p s, p.exampleSetting = some s → (loadSettings (some p)).exampleSetting = s) ∧
    (∀ p, p.exampleSetting = none → (loadSettings (some p)).exampleSetting = "default value") ∧
    loadSettings (some ⟨some false, none⟩) =
      { enableFeature := false, exampleSetting := "default value" } := by
  refine ⟨rfl, fun p b h => ?_, fun p h => ?_, fun p s h => ?_, fun p h => ?_, rfl⟩ <;>
    simp [loadSettings, h, DEFAULT_SETTINGS]

/-- Witness for C2 at a concrete partial persisted record. -/
theorem loadSettings_overlays_witness :
    (loadSettings (some ⟨some false, none⟩)).enableFeature = false :=
  loadSettings_overlays_persisted_on_defaults.2.1 ⟨some false, none⟩ false rfl

theorem updateSetting_ok_result
    (saveData : TemplatePluginSettings → Except String Unit)
    (st : ManagerState) (u : SettingUpdate)
    (hok : saveData (applySettingUpdate st.pluginSettings u) = Except.ok ()) :
    (updateSetting saveData st u).1 = Except.ok () := by
  simp [updateSetting, hok]

theorem updateSetting_ok_state
    (saveData : TemplatePluginSettings → Except String Unit)
    (st : ManagerState) (u : SettingUpdate)
    (hok : saveData (applySettingUpdate st.pluginSettings u) = Except.ok ()) :
    (updateSetting saveData st u).2.1 =
      ⟨applySettingUpdate st.settings u, applySettingUpdate st.pluginSettings u,
       some (applySettingUpdate st.pluginSettings u)⟩ := by
  simp [updateSetting, hok]

/-- C3: an `exampleSetting` value longer than 100 characters makes
`updateSetting` emit the over-length warning log, yet the update is still
applied: the in-memory field is set to the value, the whole record is still
persisted to storage, and the call succeeds. -/
theorem updateSetting_long_value_warns_but_applies
    (saveData : TemplatePluginSettings → Except String Unit)
    (st : ManagerState) (v : String) (hlen : v.length > 100)
    (hok : saveData (applySettingUpdate st.pluginSettings (SettingUpdate.exampleSetting v))
      = Except.ok ()) :
    (⟨LogLevel.warn, "Setting value exceeds recommended length",
       [("key", "exampleSetting"), ("length", toString v.length), ("maxRecommended", "100")]⟩
      : LogEntry) ∈ (updateSetting saveData st (SettingUpdate.exampleSetting v)).2.2 ∧
    (updateSetting saveData st (SettingUpdate.exampleSetting v)).2.1.settings.exampleSetting = v ∧
    (updateSetting saveData st (SettingUpdate.exampleSetting v)).2.1.stored
      = some (applySettingUpdate st.pluginSettings (SettingUpdate.exampleSetting v)) ∧
    (updateSetting saveData st (SettingUpdate.exampleSetting v)).1 = Except.ok () := by
  refine ⟨?_, ?_, ?_, updateSetting_ok_result _ _ _ hok⟩
  · simp [updateSetting, hok, exceedsRecommendedLength, hlen,
      SettingUpdate.keyName, SettingUpdate.valueString]
  · rw [updateSetting_ok_state _ _ _ hok]; simp [applySettingUpdate]
  · rw [updateSetting_ok_state _ _ _ hok]

/-- Witness for C3 at a 101-character value with a succeeding save. -/
theorem updateSetting_long_value_warns_witness :
    (⟨LogLevel.warn, "Setting value exceeds recommended length",
       [("key", "exampleSetting"),
        ("length", toString (String.mk (List.replicate 101 'x')).length),
        ("maxRecommended", "100")]⟩ : LogEntry)
      ∈ (updateSetting (fun _ => Except.ok ()) ⟨DEFAULT_SETTINGS, DEFAULT_SETTINGS, none⟩
           (SettingUpdate.exampleSetting (String.mk (List.replicate 101 'x')))).2.2 ∧
    (updateSetting (fun _ => Except.ok ()) ⟨DEFAULT_SETTINGS, DEFAULT_SETTINGS, none⟩
        (SettingUpdate.exampleSetting (String.mk (List.replicate 101 'x')))).2.1.settings.exampleSetting
      = String.mk (List.replicate 101 'x') :=
  ⟨(updateSetting_long_value_warns_but_applies _ _ _ (by simp [String.length]) rfl).1,
   (updateSetting_long_value_warns_but_applies _ _ _ (by simp [String.length]) rfl).2.1⟩

/-- C4: a successful `updateSetting` mutates exactly the addressed field of
the in-memory record (the other field keeps its value) and writes the entire
updated record back to host storage. -/
theorem updateSetting_success_mutates_one_field_and_persists
    (saveData : TemplatePluginSettings → Except String Unit)
    (st : ManagerState) (u : SettingUpdate)
    (hok : saveData (applySettingUpdate st.pluginSettings u) = Except.ok ()) :
    (updateSetting saveData st u).1 = Except.ok () ∧
    (updateSetting saveData st u).2.1.settings = applySettingUpdate st.settings u ∧
    matchesUpdate (updateSetting saveData st u).2.1.settings u = true ∧
    (∀ v, u = SettingUpdate.enableFeature v →
      (updateSetting saveData st u).2.1.settings.exampleSetting = st.settings.exampleSetting) ∧
    (∀ v, u = SettingUpdate.exampleSetting v →
      (updateSetting saveData st u).2.1.settings.enableFeature = st.settings.enableFeature) ∧
    (updateSetting saveData st u).2.1.stored = some (applySettingUpdate st.pluginSettings u) := by
  refine ⟨updateSetting_ok_result _ _ _ hok, ?_, ?_, fun v h => ?_, fun v h => ?_, ?_⟩
  · rw [updateSetting_ok_state _ _ _ hok]
  · rw [updateSetting_ok_state _ _ _ hok]
    exact matchesUpdate_applySettingUpdate _ _
  · subst h; rw [updateSetting_ok_state _ _ _ hok]; simp [applySettingUpdate]
  · subst h; rw [updateSetting_ok_state _ _ _ hok]; simp [applySettingUpdate]
  · rw [updateSetting_ok_state _ _ _ hok]

/-- Witness for C4: flipping the flag leaves the example string untouched. -/
theorem updateSetting_success_frame_witness :
    (updateSetting (fun _ => Except.ok ()) ⟨DEFAULT_SETTINGS, DEFAULT_SETTINGS, none⟩
        (SettingUpdate.enableFeature false)).2.1.settings.exampleSetting
      = DEFAULT_SETTINGS.exampleSetting :=
  (updateSetting_success_mutates_one_field_and_persists _ _ _ rfl).2.2.2.1 false rfl

/-- C8: `getSettings` returns the current in-memory record: after a
successful `updateSetting` it shows the new value at the updated key, it is
exactly the manager's `settings` field, and when manager and plugin copies
agreed before the update they still agree after (both copies are written). -/
theorem getSettings_returns_in_memory_record
    (saveData : TemplatePluginSettings → Except String Unit)
    (st : ManagerState) (u : SettingUpdate)
    (hok : saveData (applySettingUpdate st.pluginSettings u) = Except.ok ()) :
    (getSettings (updateSetting saveData st u).2.1).1
      = (updateSetting saveData st u).2.1.settings ∧
    matchesUpdate (getSettings (updateSetting saveData st u).2.1).1 u = true ∧
    (st.settings = st.pluginSettings →
      (getSettings (updateSetting saveData st u).2.1).1
        = (updateSetting saveData st u).2.1.pluginSettings) := by
  refine ⟨rfl, ?_, fun hagree => ?_⟩
  · rw [updateSetting_ok_state _ _ _ hok]
    exact matchesUpdate_applySettingUpdate _ _
  · rw [updateSetting_ok_state _ _ _ hok]
    show applySettingUpdate st.settings u = applySettingUpdate st.pluginSettings u
    rw [hagree]

/-- Witness for C8 at a concrete update with a succeeding save. -/
theorem getSettings_returns_witness :
    matchesUpdate (getSettings (updateSetting (fun _ => Except.ok ())
        ⟨DEFAULT_SETTINGS, DEFAULT_SETTINGS, none⟩ (SettingUpdate.exampleSetting "hi")).2.1).1
      (SettingUpdate.exampleSetting "hi") = true :=
  (getSettings_returns_in_memory_record (fun _ => Except.ok ())
    ⟨DEFAULT_SETTINGS, DEFAULT_SETTINGS, none⟩ (SettingUpdate.exampleSetting "hi") rfl).2.1

theorem onFileCreate_state (st : PluginState) (file : TAbstractFile) :
    (onFileCreate st file).1 = st := by
  cases file <;> rfl

theorem onFileDelete_state (st : PluginState) (file : TAbstractFile) :
    (onFileDelete st file).1 = st := by
  cases file <;> rfl

theorem onFileRename_state (st : PluginState) (file : TAbstractFile) (oldPath : String) :
    (onFileRename st file oldPath).1 = st := by
  cases file <;> rfl

/-- C5: every vault event handler is stateless and deterministic per event:
running a handler a second time with the same payload, starting from the
state the first run left behind, yields the same log output and the same
state — no state is carried from one invocation to the next. -/
theorem vault_handlers_deterministic_and_stateless
    (st : PluginState) (file : TAbstractFile) (oldPath : String) :
    ((onFileCreate (onFileCreate st file).1 file).2 = (onFileCreate st file).2 ∧
     (onFileCreate (onFileCreate st file).1 file).1 = (onFileCreate st file).1) ∧
    ((onFileDelete (onFileDelete st file).1 file).2 = (onFileDelete st file).2 ∧
     (onFileDelete (onFileDelete st file).1 file).1 = (onFileDelete st file).1) ∧
    ((onFileRename (onFileRename st file oldPath).1 file oldPath).2
        = (onFileRename st file oldPath).2 ∧
     (onFileRename (onFileRename st file oldPath).1 file oldPath).1
        = (onFileRename st file oldPath).1) := by
  simp [onFileCreate_state, onFileDelete_state, onFileRename_state]

/-- C6: no vault event handler changes plugin state: each call returns the
plugin state it was given, for every payload. -/
theorem vault_handlers_leave_state_unchanged
    (st : PluginState) (file : TAbstractFile) (oldPath : String) :
    (onFileCreate st file).1 = st ∧
    (onFileDelete st file).1 = st ∧
    (onFileRename st file oldPath).1 = st :=
  ⟨onFileCreate_state st file, onFileDelete_state st file,
   onFileRename_state st file oldPath⟩

/-- C9: a payload that is not a regular file (a folder) is ignored by all
three handlers: no log output, no effect. -/
theorem vault_handlers_ignore_non_file_payloads
    (st : PluginState) (p : String) (oldPath : String) :
    onFileCreate st (TAbstractFile.folder p) = (st, []) ∧
    onFileDelete st (TAbstractFile.folder p) = (st, []) ∧
    onFileRename st (TAbstractFile.folder p) oldPath = (st, []) :=
  ⟨rfl, rfl, rfl⟩

/-- C10: the `enableFeature` flag gates only the create handler's conditional
logging — with the flag off, `onFileCreate` emits nothing above debug
severity for any payload — while the delete and rename handlers emit the
same log output whatever the settings are. -/
theorem enableFeature_gates_only_create_logging
    (st : PluginState) (file : TAbstractFile) (oldPath : String)
    (s1 s2 : TemplatePluginSettings) :
    (st.settings.enableFeature = false → nonDebugLogs (onFileCreate st file).2 = []) ∧
    (onFileDelete ⟨s1⟩ file).2 = (onFileDelete ⟨s2⟩ file).2 ∧
    (onFileRename ⟨s1⟩ file oldPath).2 = (onFileRename ⟨s2⟩ file oldPath).2 := by
  refine ⟨fun hoff => ?_, ?_, ?_⟩
  · cases file with
    | folder p => rfl
    | file f => simp [onFileCreate, hoff, nonDebugLogs]
  · cases file <;> rfl
  · cases file <;> rfl

/-- Witness for C10: with the flag off, a file that would otherwise draw
info, warn and error lines draws none of them. -/
theorem enableFeature_gates_witness :
    nonDebugLogs (onFileCreate ⟨⟨false, "default value"⟩⟩
      (TAbstractFile.file ⟨"/.temp/a b.md", "a b.md", "md", ⟨20000⟩, none⟩)).2 = [] :=
  (enableFeature_gates_only_create_logging ⟨⟨false, "default value"⟩⟩
    (TAbstractFile.file ⟨"/.temp/a b.md", "a b.md", "md", ⟨20000⟩, none⟩) ""
    DEFAULT_SETTINGS DEFAULT_SETTINGS).1 rfl

/-- C7: after load the settings object has both fields present, and the
field assignment performed by `updateSetting` preserves this: no operation
removes a field from the record. -/
theorem settings_fields_always_defined
    (d : Option PersistedSettings) (o : PersistedSettings) (u : SettingUpdate) :
    bothFieldsDefined (loadSettingsObject d) = true ∧
    (bothFieldsDefined o = true → bothFieldsDefined (assignSettingField o u) = true) := by
  constructor
  · cases d <;> simp [loadSettingsObject, bothFieldsDefined]
  · intro h
    simp [bothFieldsDefined] at h
    cases u <;> simp [assignSettingField, bothFieldsDefined, h.1, h.2]

/-- Witness for C7: load with no persisted data, then assign the flag. -/
theorem settings_fields_always_defined_witness :
    bothFieldsDefined (assignSettingField (loadSettingsObject none)
      (SettingUpdate.enableFeature false)) = true :=
  (settings_fields_always_defined none (loadSettingsObject none)
    (SettingUpdate.enableFeature false)).2 rfl
